import Mathlib

/-!
# nginx-zookeeper: the registration lifecycle of `ngx_http_zookeeper_module.c`

A shallow embedding of the module's configuration hooks
(`ngx_http_zookeeper_create_main_conf`, the three directive handlers,
`ngx_http_zookeeper_init_main_conf`) and of its process hooks
(`ngx_http_zookeeper_init_module`, `ngx_http_zookeeper_exit_master`).

The C code mutates one process-wide `ngx_http_zookeeper_main_conf_t` and talks
to three outside parties: the allocator (`malloc`), the nginx log, and the
ZooKeeper client library.  Here the configuration is passed explicitly, the
allocator and the client library are explicit parameters, and every call to
the log or to the client library is recorded, in program order, in a trace.
-/

namespace NgxZookeeper

/-! ## Constants of the nginx and ZooKeeper headers -/

/-- `NGX_OK` of `ngx_core.h`. -/
def NGX_OK : Int := 0

/-- `NGX_ERROR` of `ngx_core.h`. -/
def NGX_ERROR : Int := -1

/-- `NGX_LOG_WARN` of `ngx_log.h`. -/
def NGX_LOG_WARN : Nat := 5

/-- `ZOK` of `zookeeper.h`. -/
def ZOK : Int := 0

/-- `ZOO_EPHEMERAL` of `zookeeper.h` (bit 0 of the create flags). -/
def ZOO_EPHEMERAL : Int := 1

/-- `ZOO_SEQUENCE` of `zookeeper.h` (bit 1 of the create flags). -/
def ZOO_SEQUENCE : Int := 2

/-- The predefined ACL vectors of `zookeeper.h`. -/
inductive ACL_vector where
  | ZOO_OPEN_ACL_UNSAFE
  | ZOO_READ_ACL_UNSAFE
  | ZOO_CREATOR_ALL_ACL
deriving DecidableEq

/-- The value of a handler that returns `char *`: `NGX_CONF_OK` (a null
pointer), `NGX_CONF_ERROR` (the pointer `-1`) or an error text. -/
inductive conf_ret where
  | NGX_CONF_OK
  | NGX_CONF_ERROR
  | message (text : String)
deriving DecidableEq

/-! ## Machine arithmetic -/

/-- Addition of two `size_t` values (64 bit, wrapping). -/
def size_t_add (a b : Nat) : Nat := (a + b) % 2 ^ 64

/-- Conversion of a `size_t` to the `int` parameter `valuelen` of `zoo_create`
(32 bit, two's complement). -/
def size_t_to_int (n : Nat) : Int :=
  if n % 2 ^ 32 < 2 ^ 31 then ((n % 2 ^ 32 : Nat) : Int) else ((n % 2 ^ 32 : Nat) : Int) - 2 ^ 32

/-! ## Data model -/

/-- An opaque `zhandle_t *` that is not null. -/
abbrev zhandle_t := Nat

/-- The nginx string `ngx_str_t`: a length and a pointer.  `data` is `none` for
a null pointer, otherwise the bytes readable from the pointer on. -/
structure ngx_str_t where
  len : Nat
  data : Option (List Nat)
deriving DecidableEq

/-- The `len` bytes an `ngx_str_t` denotes. -/
def ngx_str_t.bytes (s : ngx_str_t) : List Nat := (s.data.getD []).take s.len

/-- A well-formed `ngx_str_t`: `len` bytes can be read from `data`, and `len` is
below `SIZE_MAX`, as the length of any object in memory is. -/
def ngx_str_t.wf (s : ngx_str_t) : Prop :=
  s.len + 1 < 2 ^ 64 ∧ s.len ≤ (s.data.getD []).length

/-- The bytes of a block read as a C string: those before the first zero byte. -/
def cstring (block : List Nat) : List Nat := block.takeWhile (fun b => b != 0)

instance (s : ngx_str_t) : Decidable s.wf := by
  unfold ngx_str_t.wf; exact inferInstance

/-- The module's main configuration `ngx_http_zookeeper_main_conf_t`.  The three
`char *` buffers are `none` when null, otherwise the content of the allocated
block; `handle` is `none` when null. -/
structure ngx_http_zookeeper_main_conf_t where
  host : ngx_str_t
  path : ngx_str_t
  value : ngx_str_t
  cHost : Option (List Nat)
  cPath : Option (List Nat)
  cValue : Option (List Nat)
  handle : Option zhandle_t
deriving DecidableEq

/-- One observable call made by the module, with its arguments in the order of
the C call.  A pointer argument is recorded as the block it points to. -/
inductive Event where
  | ngx_log_error (level : Nat) (err : Nat) (msg : String)
  | ngx_log_stderr (err : Nat) (msg : String)
  | zookeeper_init (host : List Nat) (fn : Option Nat) (recv_timeout : Int)
      (clientid : Option Nat) (context : Option Nat) (flags : Int)
  | zoo_create (zh : zhandle_t) (path : List Nat) (value : List Nat) (valuelen : Int)
      (acl : ACL_vector) (flags : Int) (path_buffer : Option (List Nat))
      (path_buffer_len : Int)
  | zookeeper_close (zh : zhandle_t)
deriving DecidableEq

/-- Is the event a call into the ZooKeeper client library? -/
def Event.isClientCall : Event → Bool
  | .zookeeper_init _ _ _ _ _ _ => true
  | .zoo_create _ _ _ _ _ _ _ _ => true
  | .zookeeper_close _ => true
  | _ => false

/-- Is the event a call of the nginx log? -/
def Event.isLog : Event → Bool
  | .ngx_log_error _ _ _ => true
  | .ngx_log_stderr _ _ => true
  | _ => false

/-- The calls into the ZooKeeper client library of a trace, in order. -/
def clientCalls (t : List Event) : List Event := t.filter Event.isClientCall

/-- How many times a trace closes the handle `zh`. -/
def closeCount (zh : zhandle_t) (t : List Event) : Nat := t.count (Event.zookeeper_close zh)

/-! ## The allocator -/

/-- The C allocator as seen by the module.  `outcome k` is what the `k`-th call
of `malloc` does: `none` when it fails, `some g` when it returns a block whose
uninitialised byte at offset `i` is `g i`. -/
structure Heap where
  calls : Nat
  outcome : Nat → Option (Nat → Nat)

/-- The call `malloc(size)`: a null pointer or a block of exactly `size` bytes. -/
def malloc (h : Heap) (size : Nat) : Option (List Nat) × Heap :=
  ((h.outcome h.calls).map (fun g => (List.range size).map g), ⟨h.calls + 1, h.outcome⟩)

/-- The call `memcpy(dst, src, n)`: the first `n` bytes of `dst` become those of `src`. -/
def memcpy (dst src : List Nat) (n : Nat) : List Nat := src.take n ++ dst.drop n

/-! ## The ZooKeeper client library -/

/-- What the client library answers.  `init host` is the result of
`zookeeper_init` on the address block `host` (`none` for a null handle);
`create zh path value valuelen` is the status of `zoo_create`. -/
structure ZooKeeper where
  init : List Nat → Option zhandle_t
  create : zhandle_t → List Nat → List Nat → Int → Int

/-! ## Configuration hooks -/

/-- The function `ngx_http_zookeeper_create_main_conf`.  `pcalloc_ok` tells
whether `ngx_pcalloc` returns a block. -/
def ngx_http_zookeeper_create_main_conf (pcalloc_ok : Bool) :
    Option ngx_http_zookeeper_main_conf_t × List Event :=
  if !pcalloc_ok then
    (none, [Event.ngx_log_stderr 0 "Fail to create main conf of nginx-zookeeper"])
  else
    (some ⟨⟨0, none⟩, ⟨0, none⟩, ⟨0, none⟩, none, none, none, none⟩, [])

/-- The effect of nginx's `ngx_conf_set_str_slot` on the `ngx_str_t` a command's
offset addresses: from the field as it is and the directive's argument to the
returned text and the field afterwards. -/
abbrev SlotSetter := ngx_str_t → ngx_str_t → conf_ret × ngx_str_t

/-- The setter `ngx_conf_set_str_slot` of nginx's `ngx_conf_file.c`: a field whose
`data` is already set is reported as a duplicate and kept, otherwise the
argument is stored. -/
def ngx_conf_set_str_slot : SlotSetter := fun field arg =>
  if field.data.isSome then (conf_ret.message "is duplicate", field) else (conf_ret.NGX_CONF_OK, arg)

/-- The three directives of `ngx_http_zookeeper_commands`. -/
inductive Directive where
  | zookeeper_path
  | zookeeper_host
  | zookeeper_value
deriving DecidableEq

/-- The handler `ngx_http_zookeeper_path_parser`, registered with
`offsetof(ngx_http_zookeeper_main_conf_t, path)`: it calls the slot setter and
returns `NGX_CONF_OK` whatever the setter returned. -/
def ngx_http_zookeeper_path_parser_fn (slot : SlotSetter) (arg : ngx_str_t)
    (conf : ngx_http_zookeeper_main_conf_t) : conf_ret × ngx_http_zookeeper_main_conf_t :=
  (conf_ret.NGX_CONF_OK, { conf with path := (slot conf.path arg).2 })

/-- The handler `ngx_http_zookeeper_host_parser`, registered with
`offsetof(ngx_http_zookeeper_main_conf_t, host)`. -/
def ngx_http_zookeeper_host_parser_fn (slot : SlotSetter) (arg : ngx_str_t)
    (conf : ngx_http_zookeeper_main_conf_t) : conf_ret × ngx_http_zookeeper_main_conf_t :=
  (conf_ret.NGX_CONF_OK, { conf with host := (slot conf.host arg).2 })

/-- The handler `ngx_http_zookeeper_value_parser`, registered with
`offsetof(ngx_http_zookeeper_main_conf_t, value)`. -/
def ngx_http_zookeeper_value_parser_fn (slot : SlotSetter) (arg : ngx_str_t)
    (conf : ngx_http_zookeeper_main_conf_t) : conf_ret × ngx_http_zookeeper_main_conf_t :=
  (conf_ret.NGX_CONF_OK, { conf with value := (slot conf.value arg).2 })

/-- The table `ngx_http_zookeeper_commands`: the handler of each directive. -/
def ngx_http_zookeeper_commands (d : Directive) (slot : SlotSetter) (arg : ngx_str_t)
    (conf : ngx_http_zookeeper_main_conf_t) : conf_ret × ngx_http_zookeeper_main_conf_t :=
  match d with
  | .zookeeper_path => ngx_http_zookeeper_path_parser_fn slot arg conf
  | .zookeeper_host => ngx_http_zookeeper_host_parser_fn slot arg conf
  | .zookeeper_value => ngx_http_zookeeper_value_parser_fn slot arg conf

/-- The configuration after nginx has run the handlers of the directives `ds`
(each with its one argument) in file order. -/
def run_directives (slot : SlotSetter) (ds : List (Directive × ngx_str_t))
    (conf : ngx_http_zookeeper_main_conf_t) : ngx_http_zookeeper_main_conf_t :=
  ds.foldl (fun c d => (ngx_http_zookeeper_commands d.1 slot d.2 c).2) conf

/-- The outcome of `ngx_http_zookeeper_init_main_conf`: the returned value, the
configuration and the allocator afterwards, and the calls made. -/
structure ConfResult where
  ret : conf_ret
  conf : Option ngx_http_zookeeper_main_conf_t
  heap : Heap
  trace : List Event

/-- The block `// value (to be added to node)` of
`ngx_http_zookeeper_init_main_conf` and the final `return NGX_CONF_OK`. -/
def init_main_conf_value (mf : ngx_http_zookeeper_main_conf_t) (heap : Heap)
    (trace : List Event) : ConfResult :=
  if mf.value.len ≤ 0 then
    ⟨conf_ret.NGX_CONF_OK, some mf, heap,
      trace ++ [Event.ngx_log_stderr 0 "WARNING: No zookeeper_value was given"]⟩
  else
    match malloc heap (size_t_add mf.value.len 1) with
    | (none, heap1) =>
      ⟨conf_ret.NGX_CONF_ERROR, some { mf with cValue := none }, heap1,
        trace ++ [Event.ngx_log_stderr 0 "Fail to malloc for value"]⟩
    | (some block, heap1) =>
      ⟨conf_ret.NGX_CONF_OK,
        some { mf with
          cValue := some ((memcpy block (mf.value.data.getD []) mf.value.len).set mf.value.len 0) },
        heap1, trace⟩

/-- The block `// path` of `ngx_http_zookeeper_init_main_conf` and what follows it. -/
def init_main_conf_path (mf : ngx_http_zookeeper_main_conf_t) (heap : Heap)
    (trace : List Event) : ConfResult :=
  if mf.path.len ≤ 0 then
    init_main_conf_value mf heap
      (trace ++ [Event.ngx_log_stderr 0 "WARNING: No zookeeper_path was given"])
  else
    match malloc heap (size_t_add mf.path.len 1) with
    | (none, heap1) =>
      ⟨conf_ret.NGX_CONF_ERROR, some { mf with cPath := none }, heap1,
        trace ++ [Event.ngx_log_stderr 0 "Fail to malloc for path"]⟩
    | (some block, heap1) =>
      init_main_conf_value
        { mf with
          cPath := some ((memcpy block (mf.path.data.getD []) mf.path.len).set mf.path.len 0) }
        heap1 trace

/-- The block `// host` of `ngx_http_zookeeper_init_main_conf` and what follows it. -/
def init_main_conf_host (mf : ngx_http_zookeeper_main_conf_t) (heap : Heap)
    (trace : List Event) : ConfResult :=
  if mf.host.len ≤ 0 then
    init_main_conf_path mf heap
      (trace ++ [Event.ngx_log_stderr 0 "WARNING: No zookeeper_host was given"])
  else
    match malloc heap (size_t_add mf.host.len 1) with
    | (none, heap1) =>
      ⟨conf_ret.NGX_CONF_ERROR, some { mf with cHost := none }, heap1,
        trace ++ [Event.ngx_log_stderr 0 "Fail to malloc for host"]⟩
    | (some block, heap1) =>
      init_main_conf_path
        { mf with
          cHost := some ((memcpy block (mf.host.data.getD []) mf.host.len).set mf.host.len 0) }
        heap1 trace

/-- The function `ngx_http_zookeeper_init_main_conf`; `conf` is `none` for a null
pointer. -/
def ngx_http_zookeeper_init_main_conf (heap : Heap)
    (conf : Option ngx_http_zookeeper_main_conf_t) : ConfResult :=
  match conf with
  | none => ⟨conf_ret.NGX_CONF_ERROR, none, heap, [Event.ngx_log_stderr 0 "Impossible conf"]⟩
  | some mf => init_main_conf_host mf heap []

/-! ## Process hooks -/

/-- The outcome of a process hook: the returned status, the configuration
afterwards, and the calls made. -/
structure HookResult where
  ret : Int
  conf : Option ngx_http_zookeeper_main_conf_t
  trace : List Event
deriving DecidableEq

/-- The function `ngx_http_zookeeper_init_module`.  `ngx_test_config` is nginx's
global flag; `cycle` is what `ngx_http_cycle_get_module_main_conf` yields
(`none` for a null pointer). -/
def ngx_http_zookeeper_init_module (ngx_test_config : Bool) (zk : ZooKeeper)
    (cycle : Option ngx_http_zookeeper_main_conf_t) : HookResult :=
  if ngx_test_config then ⟨NGX_OK, cycle, []⟩
  else
    match cycle with
    | none =>
      ⟨NGX_ERROR, none,
        [Event.ngx_log_error NGX_LOG_WARN 0 "ngx_http_zookeeper_module: Fail to get configuration",
         Event.ngx_log_stderr 0 "ngx_http_zookeeper_module: Fail to get configuration"]⟩
    | some zmf =>
      if zmf.host.len ≤ 0 then
        ⟨NGX_OK, some zmf, [Event.ngx_log_error NGX_LOG_WARN 0 "No zookeeper host was given"]⟩
      else if zmf.path.len ≤ 0 then
        ⟨NGX_OK, some zmf, [Event.ngx_log_error NGX_LOG_WARN 0 "No zookeeper path was given"]⟩
      else if zmf.value.len ≤ 0 then
        ⟨NGX_OK, some zmf, [Event.ngx_log_error NGX_LOG_WARN 0 "No zookeeper value was given"]⟩
      else
        match zmf.cHost with
        | none =>
          ⟨NGX_ERROR, some zmf,
            [Event.ngx_log_error NGX_LOG_WARN 0 "Impossible cHost",
             Event.ngx_log_stderr 0 "Impossible cHost"]⟩
        | some cHost =>
        match zmf.cPath with
        | none =>
          ⟨NGX_ERROR, some zmf,
            [Event.ngx_log_error NGX_LOG_WARN 0 "Impossible cPath",
             Event.ngx_log_stderr 0 "Impossible cPath"]⟩
        | some cPath =>
        match zmf.cValue with
        | none =>
          ⟨NGX_ERROR, some zmf,
            [Event.ngx_log_error NGX_LOG_WARN 0 "Impossible cValue",
             Event.ngx_log_stderr 0 "Impossible cValue"]⟩
        | some cValue =>
        -- init zookeeper
        let opened := Event.zookeeper_init cHost none 10000 none none 0
        match zk.init cHost with
        | none =>
          ⟨NGX_ERROR, some { zmf with handle := none },
            [opened,
             Event.ngx_log_error NGX_LOG_WARN 0 "Fail to init zookeeper instance",
             Event.ngx_log_stderr 0 "Fail to init zookeeper instance"]⟩
        | some zh =>
          -- create node
          let valuelen := size_t_to_int zmf.value.len
          let created := Event.zoo_create zh cPath cValue valuelen
            ACL_vector.ZOO_OPEN_ACL_UNSAFE ZOO_EPHEMERAL none 0
          if ZOK ≠ zk.create zh cPath cValue valuelen then
            ⟨NGX_ERROR, some { zmf with handle := none },
              [opened, created,
               Event.ngx_log_error NGX_LOG_WARN 0 "Fail to create zookeeper node",
               Event.ngx_log_stderr 0 "Fail to create zookeeper node",
               Event.zookeeper_close zh]⟩
          else
            ⟨NGX_OK, some { zmf with handle := some zh }, [opened, created]⟩

/-- The function `ngx_http_zookeeper_exit_master`: it returns nothing, so the
outcome is the configuration afterwards and the calls made. -/
def ngx_http_zookeeper_exit_master (cycle : Option ngx_http_zookeeper_main_conf_t) :
    Option ngx_http_zookeeper_main_conf_t × List Event :=
  match cycle with
  | none => (none, [])
  | some zmf =>
    match zmf.handle with
    | none => (some zmf, [])
    | some zh => (some zmf, [Event.zookeeper_close zh])

/-! ## The configuration phase and the notions the statements use -/

/-- The configuration phase of nginx for this module: the main configuration
is created, the handlers of the directives of the configuration file run on
it in file order, then it is finalized.  A null configuration makes nginx give
up before any handler runs. -/
def configure (pcalloc_ok : Bool) (slot : SlotSetter) (ds : List (Directive × ngx_str_t))
    (heap : Heap) : ConfResult :=
  match ngx_http_zookeeper_create_main_conf pcalloc_ok with
  | (none, trace) => ⟨conf_ret.NGX_CONF_ERROR, none, heap, trace⟩
  | (some conf, trace) =>
    let r := ngx_http_zookeeper_init_main_conf heap (some (run_directives slot ds conf))
    ⟨r.ret, r.conf, r.heap, trace ++ r.trace⟩

/-- Is the event one of the log calls of the three null-buffer branches of
`ngx_http_zookeeper_init_module`? -/
def Event.isImpossibleLog : Event → Bool
  | .ngx_log_error _ _ msg =>
    msg = "Impossible cHost" || msg = "Impossible cPath" || msg = "Impossible cValue"
  | .ngx_log_stderr _ msg =>
    msg = "Impossible cHost" || msg = "Impossible cPath" || msg = "Impossible cValue"
  | _ => false

/-- The buffer a field has after a successful finalize: untouched when the raw
value is empty, else the raw bytes and a terminator. -/
def finalBuffer (s : ngx_str_t) (old : Option (List Nat)) : Option (List Nat) :=
  if s.len = 0 then old else some (s.bytes ++ [0])

/-- The session handle the process-wide state holds, `none` when there is no
configuration or its `handle` is null. -/
def storedHandle (cycle : Option ngx_http_zookeeper_main_conf_t) : Option zhandle_t :=
  cycle.bind (fun zmf => zmf.handle)

/-! ## Concrete scenarios -/

/-- A directive argument holding the bytes `bs`. -/
def token (bs : List Nat) : ngx_str_t := ⟨bs.length, some bs⟩

/-- The address `zk:1`. -/
def demoHost : List Nat := [122, 107, 58, 49]

/-- The path `/a`. -/
def demoPath : List Nat := [47, 97]

/-- The payload `v1`. -/
def demoValue : List Nat := [118, 49]

/-- A finalized configuration with all three fields set and no session. -/
def demoConf : ngx_http_zookeeper_main_conf_t :=
  ⟨token demoHost, token demoPath, token demoValue,
    some (demoHost ++ [0]), some (demoPath ++ [0]), some (demoValue ++ [0]), none⟩

/-- A finalized configuration whose path was never set. -/
def demoConfNoPath : ngx_http_zookeeper_main_conf_t :=
  ⟨token demoHost, ⟨0, none⟩, token demoValue,
    some (demoHost ++ [0]), none, some (demoValue ++ [0]), none⟩

/-- A client library that opens session `7` and creates the node. -/
def zkUp : ZooKeeper := ⟨fun _ => some 7, fun _ _ _ _ => 0⟩

/-- A client library that cannot open a session. -/
def zkDown : ZooKeeper := ⟨fun _ => none, fun _ _ _ _ => 0⟩

/-- A client library that opens session `7` and rejects the node with
`ZNODEEXISTS` (`-110`). -/
def zkExists : ZooKeeper := ⟨fun _ => some 7, fun _ _ _ _ => -110⟩

/-- An allocator whose every call succeeds, with blocks filled with `170`. -/
def heapOk : Heap := ⟨0, fun _ => some (fun _ => 170)⟩

/-- The configuration after the three directives, before it is finalized. -/
def demoRaw : ngx_http_zookeeper_main_conf_t :=
  ⟨token demoHost, token demoPath, token demoValue, none, none, none, none⟩

/-- The configuration after `zookeeper_host` and `zookeeper_value` only, before
it is finalized. -/
def demoRawNoPath : ngx_http_zookeeper_main_conf_t :=
  ⟨token demoHost, ⟨0, none⟩, token demoValue, none, none, none, none⟩

/-- A configuration file that sets the address and the payload, not the path. -/
def demoDirectives : List (Directive × ngx_str_t) :=
  [(Directive.zookeeper_host, token demoHost), (Directive.zookeeper_value, token demoValue)]

/-! ## The start hook -/

/-- C8: in configuration-test mode the start hook does nothing at all, whatever
the configuration (present or not, complete or not): it makes no call to the
client library and none to the log, hands back the configuration (and so the
handle) as it was, and returns `NGX_OK`. -/
theorem init_module_test_config (zk : ZooKeeper)
    (cycle : Option ngx_http_zookeeper_main_conf_t) :
    ngx_http_zookeeper_init_module true zk cycle = ⟨NGX_OK, cycle, []⟩ ∧
      clientCalls (ngx_http_zookeeper_init_module true zk cycle).trace = [] ∧
      (ngx_http_zookeeper_init_module true zk cycle).trace.filter Event.isLog = [] ∧
      storedHandle (ngx_http_zookeeper_init_module true zk cycle).conf = storedHandle cycle := by
  simp [ngx_http_zookeeper_init_module, clientCalls]

/-- C1: outside configuration-test mode, when the address, the path or the
payload is empty, the start hook makes no call to the client library (no open,
no create, no close), leaves the configuration untouched, so that a handle that
was absent stays absent, and returns `NGX_OK`. -/
theorem init_module_missing_field (zk : ZooKeeper) (zmf : ngx_http_zookeeper_main_conf_t)
    (h : zmf.host.len = 0 ∨ zmf.path.len = 0 ∨ zmf.value.len = 0) :
    clientCalls (ngx_http_zookeeper_init_module false zk (some zmf)).trace = [] ∧
      (ngx_http_zookeeper_init_module false zk (some zmf)).conf = some zmf ∧
      (zmf.handle = none →
        storedHandle (ngx_http_zookeeper_init_module false zk (some zmf)).conf = none) ∧
      (ngx_http_zookeeper_init_module false zk (some zmf)).ret = NGX_OK := by
  have key : (ngx_http_zookeeper_init_module false zk (some zmf)).trace.all
        (fun e => e.isLog) = true ∧
      (ngx_http_zookeeper_init_module false zk (some zmf)).conf = some zmf ∧
      (ngx_http_zookeeper_init_module false zk (some zmf)).ret = NGX_OK := by
    unfold ngx_http_zookeeper_init_module
    by_cases h1 : zmf.host.len = 0
    · simp [h1, Event.isLog]
    · by_cases h2 : zmf.path.len = 0
      · simp [h1, h2, Event.isLog]
      · have h3 : zmf.value.len = 0 := by tauto
        simp [h1, h2, h3, Event.isLog]
  obtain ⟨ht, hc, hr⟩ := key
  refine ⟨?_, hc, ?_, hr⟩
  · rw [clientCalls, List.filter_eq_nil_iff]
    intro e he
    have := (List.all_eq_true.mp ht) e he
    cases e <;> simp_all [Event.isClientCall, Event.isLog]
  · intro hn
    rw [hc]
    simpa [storedHandle] using hn

/-- Witness of C1 -/
theorem init_module_missing_field_witness :
    (demoConfNoPath.host.len = 0 ∨ demoConfNoPath.path.len = 0 ∨
        demoConfNoPath.value.len = 0) ∧
      (clientCalls (ngx_http_zookeeper_init_module false zkUp (some demoConfNoPath)).trace = [] ∧
        (ngx_http_zookeeper_init_module false zkUp (some demoConfNoPath)).conf
          = some demoConfNoPath ∧
        (demoConfNoPath.handle = none →
          storedHandle (ngx_http_zookeeper_init_module false zkUp (some demoConfNoPath)).conf
            = none) ∧
        (ngx_http_zookeeper_init_module false zkUp (some demoConfNoPath)).ret = NGX_OK) :=
  ⟨by decide, init_module_missing_field zkUp demoConfNoPath (by decide)⟩

/-- C4: with all three fields set and their buffers present, when
`zookeeper_init` returns a null handle the start hook's only call to the client
library is that open (no create, no close); the stored handle is absent
afterwards, and the end hook then makes no call at all. -/
theorem init_module_open_fails (zk : ZooKeeper) (zmf : ngx_http_zookeeper_main_conf_t)
    (cHost cPath cValue : List Nat)
    (hh : 0 < zmf.host.len) (hp : 0 < zmf.path.len) (hv : 0 < zmf.value.len)
    (hcH : zmf.cHost = some cHost) (hcP : zmf.cPath = some cPath)
    (hcV : zmf.cValue = some cValue) (hopen : zk.init cHost = none) :
    clientCalls (ngx_http_zookeeper_init_module false zk (some zmf)).trace
        = [Event.zookeeper_init cHost none 10000 none none 0] ∧
      storedHandle (ngx_http_zookeeper_init_module false zk (some zmf)).conf = none ∧
      (ngx_http_zookeeper_exit_master
        (ngx_http_zookeeper_init_module false zk (some zmf)).conf).2 = [] := by
  have e1 : zmf.host.len ≠ 0 := by omega
  have e2 : zmf.path.len ≠ 0 := by omega
  have e3 : zmf.value.len ≠ 0 := by omega
  simp [ngx_http_zookeeper_init_module, ngx_http_zookeeper_exit_master, clientCalls,
    storedHandle, Event.isClientCall, e1, e2, e3, hcH, hcP, hcV, hopen]

/-- Witness of C4 -/
theorem init_module_open_fails_witness :
    (0 < demoConf.host.len ∧ 0 < demoConf.path.len ∧ 0 < demoConf.value.len ∧
        demoConf.cHost = some (demoHost ++ [0]) ∧ demoConf.cPath = some (demoPath ++ [0]) ∧
        demoConf.cValue = some (demoValue ++ [0]) ∧ zkDown.init (demoHost ++ [0]) = none) ∧
      (clientCalls (ngx_http_zookeeper_init_module false zkDown (some demoConf)).trace
          = [Event.zookeeper_init (demoHost ++ [0]) none 10000 none none 0] ∧
        storedHandle (ngx_http_zookeeper_init_module false zkDown (some demoConf)).conf = none ∧
        (ngx_http_zookeeper_exit_master
          (ngx_http_zookeeper_init_module false zkDown (some demoConf)).conf).2 = []) :=
  ⟨by decide, init_module_open_fails zkDown demoConf (demoHost ++ [0]) (demoPath ++ [0])
    (demoValue ++ [0]) (by decide) (by decide) (by decide) rfl rfl rfl rfl⟩

/-- C3: with all three fields set and their buffers present, when
`zookeeper_init` returns a handle and `zoo_create` a status other than `ZOK`,
the start hook's calls to the client library are the open, the create and then
one close of the handle just opened; the stored handle is absent afterwards, the
end hook then makes no call, and over both hooks the handle is closed exactly
once. -/
theorem init_module_create_fails (zk : ZooKeeper) (zmf : ngx_http_zookeeper_main_conf_t)
    (cHost cPath cValue : List Nat) (zh : zhandle_t)
    (hh : 0 < zmf.host.len) (hp : 0 < zmf.path.len) (hv : 0 < zmf.value.len)
    (hcH : zmf.cHost = some cHost) (hcP : zmf.cPath = some cPath)
    (hcV : zmf.cValue = some cValue) (hopen : zk.init cHost = some zh)
    (hcreate : zk.create zh cPath cValue (size_t_to_int zmf.value.len) ≠ ZOK) :
    clientCalls (ngx_http_zookeeper_init_module false zk (some zmf)).trace
        = [Event.zookeeper_init cHost none 10000 none none 0,
           Event.zoo_create zh cPath cValue (size_t_to_int zmf.value.len)
             ACL_vector.ZOO_OPEN_ACL_UNSAFE ZOO_EPHEMERAL none 0,
           Event.zookeeper_close zh] ∧
      storedHandle (ngx_http_zookeeper_init_module false zk (some zmf)).conf = none ∧
      (ngx_http_zookeeper_exit_master
        (ngx_http_zookeeper_init_module false zk (some zmf)).conf).2 = [] ∧
      closeCount zh ((ngx_http_zookeeper_init_module false zk (some zmf)).trace ++
        (ngx_http_zookeeper_exit_master
          (ngx_http_zookeeper_init_module false zk (some zmf)).conf).2) = 1 := by
  have e1 : zmf.host.len ≠ 0 := by omega
  have e2 : zmf.path.len ≠ 0 := by omega
  have e3 : zmf.value.len ≠ 0 := by omega
  have e4 : ¬ ZOK = zk.create zh cPath cValue (size_t_to_int zmf.value.len) :=
    fun h => hcreate h.symm
  simp [ngx_http_zookeeper_init_module, ngx_http_zookeeper_exit_master, clientCalls,
    storedHandle, closeCount, Event.isClientCall, e1, e2, e3, e4, hcH, hcP, hcV, hopen]

/-- Witness of C3 -/
theorem init_module_create_fails_witness :
    (0 < demoConf.host.len ∧ 0 < demoConf.path.len ∧ 0 < demoConf.value.len ∧
        demoConf.cHost = some (demoHost ++ [0]) ∧ demoConf.cPath = some (demoPath ++ [0]) ∧
        demoConf.cValue = some (demoValue ++ [0]) ∧
        zkExists.init (demoHost ++ [0]) = some 7 ∧
        zkExists.create 7 (demoPath ++ [0]) (demoValue ++ [0])
          (size_t_to_int demoConf.value.len) ≠ ZOK) ∧
      (clientCalls (ngx_http_zookeeper_init_module false zkExists (some demoConf)).trace
          = [Event.zookeeper_init (demoHost ++ [0]) none 10000 none none 0,
             Event.zoo_create 7 (demoPath ++ [0]) (demoValue ++ [0])
               (size_t_to_int demoConf.value.len)
               ACL_vector.ZOO_OPEN_ACL_UNSAFE ZOO_EPHEMERAL none 0,
             Event.zookeeper_close 7] ∧
        storedHandle (ngx_http_zookeeper_init_module false zkExists (some demoConf)).conf
          = none ∧
        (ngx_http_zookeeper_exit_master
          (ngx_http_zookeeper_init_module false zkExists (some demoConf)).conf).2 = [] ∧
        closeCount 7 ((ngx_http_zookeeper_init_module false zkExists (some demoConf)).trace ++
          (ngx_http_zookeeper_exit_master
            (ngx_http_zookeeper_init_module false zkExists (some demoConf)).conf).2) = 1) :=
  ⟨by decide, init_module_create_fails zkExists demoConf (demoHost ++ [0]) (demoPath ++ [0])
    (demoValue ++ [0]) 7 (by decide) (by decide) (by decide) rfl rfl rfl rfl (by decide)⟩

/-- C7: when the start hook ended registered (all three fields set, buffers
present, `zookeeper_init` returned a handle and `zoo_create` returned `ZOK`),
the first run of the end hook makes exactly one call, the close of the handle
that `zookeeper_init` returned; the calls to the client library over both hooks
are the open, the create and that close, in this order. -/
theorem exit_master_after_registered (zk : ZooKeeper) (zmf : ngx_http_zookeeper_main_conf_t)
    (cHost cPath cValue : List Nat) (zh : zhandle_t)
    (hh : 0 < zmf.host.len) (hp : 0 < zmf.path.len) (hv : 0 < zmf.value.len)
    (hcH : zmf.cHost = some cHost) (hcP : zmf.cPath = some cPath)
    (hcV : zmf.cValue = some cValue) (hopen : zk.init cHost = some zh)
    (hcreate : zk.create zh cPath cValue (size_t_to_int zmf.value.len) = ZOK) :
    (ngx_http_zookeeper_init_module false zk (some zmf)).ret = NGX_OK ∧
      storedHandle (ngx_http_zookeeper_init_module false zk (some zmf)).conf = some zh ∧
      (ngx_http_zookeeper_exit_master
        (ngx_http_zookeeper_init_module false zk (some zmf)).conf).2
        = [Event.zookeeper_close zh] ∧
      clientCalls ((ngx_http_zookeeper_init_module false zk (some zmf)).trace ++
        (ngx_http_zookeeper_exit_master
          (ngx_http_zookeeper_init_module false zk (some zmf)).conf).2)
        = [Event.zookeeper_init cHost none 10000 none none 0,
           Event.zoo_create zh cPath cValue (size_t_to_int zmf.value.len)
             ACL_vector.ZOO_OPEN_ACL_UNSAFE ZOO_EPHEMERAL none 0,
           Event.zookeeper_close zh] := by
  have e1 : zmf.host.len ≠ 0 := by omega
  have e2 : zmf.path.len ≠ 0 := by omega
  have e3 : zmf.value.len ≠ 0 := by omega
  simp [ngx_http_zookeeper_init_module, ngx_http_zookeeper_exit_master, clientCalls,
    storedHandle, Event.isClientCall, e1, e2, e3, hcreate, hcH, hcP, hcV, hopen]

/-- Witness of C7 -/
theorem exit_master_after_registered_witness :
    (0 < demoConf.host.len ∧ 0 < demoConf.path.len ∧ 0 < demoConf.value.len ∧
        demoConf.cHost = some (demoHost ++ [0]) ∧ demoConf.cPath = some (demoPath ++ [0]) ∧
        demoConf.cValue = some (demoValue ++ [0]) ∧
        zkUp.init (demoHost ++ [0]) = some 7 ∧
        zkUp.create 7 (demoPath ++ [0]) (demoValue ++ [0])
          (size_t_to_int demoConf.value.len) = ZOK) ∧
      ((ngx_http_zookeeper_init_module false zkUp (some demoConf)).ret = NGX_OK ∧
        storedHandle (ngx_http_zookeeper_init_module false zkUp (some demoConf)).conf = some 7 ∧
        (ngx_http_zookeeper_exit_master
          (ngx_http_zookeeper_init_module false zkUp (some demoConf)).conf).2
          = [Event.zookeeper_close 7] ∧
        clientCalls ((ngx_http_zookeeper_init_module false zkUp (some demoConf)).trace ++
          (ngx_http_zookeeper_exit_master
            (ngx_http_zookeeper_init_module false zkUp (some demoConf)).conf).2)
          = [Event.zookeeper_init (demoHost ++ [0]) none 10000 none none 0,
             Event.zoo_create 7 (demoPath ++ [0]) (demoValue ++ [0])
               (size_t_to_int demoConf.value.len)
               ACL_vector.ZOO_OPEN_ACL_UNSAFE ZOO_EPHEMERAL none 0,
             Event.zookeeper_close 7]) :=
  ⟨by decide, exit_master_after_registered zkUp demoConf (demoHost ++ [0]) (demoPath ++ [0])
    (demoValue ++ [0]) 7 (by decide) (by decide) (by decide) rfl rfl rfl rfl (by decide)⟩

/-- C6 fails on the code: with everything configured, a failed open and a
failed create both make the start hook return `NGX_ERROR`, not `NGX_OK`. -/
theorem init_module_failure_is_reported :
    (0 < demoConf.host.len ∧ 0 < demoConf.path.len ∧ 0 < demoConf.value.len ∧
        demoConf.cHost = some (demoHost ++ [0]) ∧ demoConf.cPath = some (demoPath ++ [0]) ∧
        demoConf.cValue = some (demoValue ++ [0])) ∧
      (zkDown.init (demoHost ++ [0]) = none ∧
        (ngx_http_zookeeper_init_module false zkDown (some demoConf)).ret = NGX_ERROR ∧
        (ngx_http_zookeeper_init_module false zkDown (some demoConf)).ret ≠ NGX_OK) ∧
      (zkExists.init (demoHost ++ [0]) = some 7 ∧
        zkExists.create 7 (demoPath ++ [0]) (demoValue ++ [0])
          (size_t_to_int demoConf.value.len) ≠ ZOK ∧
        (ngx_http_zookeeper_init_module false zkExists (some demoConf)).ret = NGX_ERROR ∧
        (ngx_http_zookeeper_init_module false zkExists (some demoConf)).ret ≠ NGX_OK) := by
  decide

/-- C6 as amended: with all three fields set and their buffers present, when
`zookeeper_init` returns a null handle, or returns a handle and `zoo_create`
then returns a status other than `ZOK`, the start hook returns `NGX_ERROR` (and
not `NGX_OK`) to the host framework. -/
theorem init_module_failure_status (zk : ZooKeeper) (zmf : ngx_http_zookeeper_main_conf_t)
    (cHost cPath cValue : List Nat)
    (hh : 0 < zmf.host.len) (hp : 0 < zmf.path.len) (hv : 0 < zmf.value.len)
    (hcH : zmf.cHost = some cHost) (hcP : zmf.cPath = some cPath)
    (hcV : zmf.cValue = some cValue)
    (hfail : zk.init cHost = none ∨
      ∃ zh, zk.init cHost = some zh ∧
        zk.create zh cPath cValue (size_t_to_int zmf.value.len) ≠ ZOK) :
    (ngx_http_zookeeper_init_module false zk (some zmf)).ret = NGX_ERROR ∧
      (ngx_http_zookeeper_init_module false zk (some zmf)).ret ≠ NGX_OK := by
  have e1 : zmf.host.len ≠ 0 := by omega
  have e2 : zmf.path.len ≠ 0 := by omega
  have e3 : zmf.value.len ≠ 0 := by omega
  have hne : NGX_ERROR ≠ NGX_OK := by decide
  rcases hfail with hopen | ⟨zh, hopen, hcreate⟩
  · have : (ngx_http_zookeeper_init_module false zk (some zmf)).ret = NGX_ERROR := by
      simp [ngx_http_zookeeper_init_module, e1, e2, e3, hcH, hcP, hcV, hopen]
    exact ⟨this, this ▸ hne⟩
  · have e4 : ¬ ZOK = zk.create zh cPath cValue (size_t_to_int zmf.value.len) :=
      fun h => hcreate h.symm
    have : (ngx_http_zookeeper_init_module false zk (some zmf)).ret = NGX_ERROR := by
      simp [ngx_http_zookeeper_init_module, e1, e2, e3, e4, hcH, hcP, hcV, hopen]
    exact ⟨this, this ▸ hne⟩

/-- Witness of C6 as amended -/
theorem init_module_failure_status_witness :
    (0 < demoConf.host.len ∧ 0 < demoConf.path.len ∧ 0 < demoConf.value.len ∧
        demoConf.cHost = some (demoHost ++ [0]) ∧ demoConf.cPath = some (demoPath ++ [0]) ∧
        demoConf.cValue = some (demoValue ++ [0]) ∧
        (zkExists.init (demoHost ++ [0]) = none ∨
          ∃ zh, zkExists.init (demoHost ++ [0]) = some zh ∧
            zkExists.create zh (demoPath ++ [0]) (demoValue ++ [0])
              (size_t_to_int demoConf.value.len) ≠ ZOK)) ∧
      ((ngx_http_zookeeper_init_module false zkExists (some demoConf)).ret = NGX_ERROR ∧
        (ngx_http_zookeeper_init_module false zkExists (some demoConf)).ret ≠ NGX_OK) :=
  ⟨⟨by decide, by decide, by decide, rfl, rfl, rfl, Or.inr ⟨7, rfl, by decide⟩⟩,
    init_module_failure_status zkExists demoConf (demoHost ++ [0]) (demoPath ++ [0])
      (demoValue ++ [0]) (by decide) (by decide) (by decide) rfl rfl rfl
      (Or.inr ⟨7, rfl, by decide⟩)⟩

/-! ## The end hook -/

/-- The end hook never changes the configuration: in particular it does not
clear `handle` after closing it. -/
theorem exit_master_keeps_conf (cycle : Option ngx_http_zookeeper_main_conf_t) :
    (ngx_http_zookeeper_exit_master cycle).1 = cycle := by
  unfold ngx_http_zookeeper_exit_master
  cases cycle with
  | none => rfl
  | some zmf => cases h : zmf.handle <;> simp [h]

/-- With no handle stored the end hook makes no call. -/
theorem exit_master_no_handle (cycle : Option ngx_http_zookeeper_main_conf_t)
    (h : storedHandle cycle = none) : (ngx_http_zookeeper_exit_master cycle).2 = [] := by
  unfold ngx_http_zookeeper_exit_master
  cases cycle with
  | none => rfl
  | some zmf =>
    have h0 : zmf.handle = none := by simpa [storedHandle] using h
    simp [h0]

/-- C5 fails on the code: after a registered start (session `7` stored), the end
hook closes handle `7`, leaves it stored, and a second run of the end hook
closes the same handle again: two closes where the claim allows one. -/
theorem exit_master_twice_closes_twice :
    storedHandle (ngx_http_zookeeper_init_module false zkUp (some demoConf)).conf = some 7 ∧
      (ngx_http_zookeeper_exit_master
        (ngx_http_zookeeper_init_module false zkUp (some demoConf)).conf).2
        = [Event.zookeeper_close 7] ∧
      storedHandle (ngx_http_zookeeper_exit_master
        (ngx_http_zookeeper_init_module false zkUp (some demoConf)).conf).1 = some 7 ∧
      (ngx_http_zookeeper_exit_master (ngx_http_zookeeper_exit_master
        (ngx_http_zookeeper_init_module false zkUp (some demoConf)).conf).1).2
        = [Event.zookeeper_close 7] ∧
      closeCount 7
        ((ngx_http_zookeeper_exit_master
            (ngx_http_zookeeper_init_module false zkUp (some demoConf)).conf).2 ++
          (ngx_http_zookeeper_exit_master (ngx_http_zookeeper_exit_master
            (ngx_http_zookeeper_init_module false zkUp (some demoConf)).conf).1).2) = 2 := by
  decide

/-- C5 as amended: one run of the end hook makes no call when no handle is
stored (no configuration, or a null `handle`, as in the unconfigured state and
after a failed start); when the handle `zh` is stored its whole trace is the one
call `zookeeper_close zh`; so a single run closes each handle at most once.
The hook leaves the configuration, the stored handle included, as it was. -/
theorem exit_master_single_run (cycle : Option ngx_http_zookeeper_main_conf_t) :
    (storedHandle cycle = none → (ngx_http_zookeeper_exit_master cycle).2 = []) ∧
      (∀ zh, storedHandle cycle = some zh →
        (ngx_http_zookeeper_exit_master cycle).2 = [Event.zookeeper_close zh]) ∧
      (∀ zh, closeCount zh (ngx_http_zookeeper_exit_master cycle).2 ≤ 1) ∧
      (ngx_http_zookeeper_exit_master cycle).1 = cycle ∧
      storedHandle (ngx_http_zookeeper_exit_master cycle).1 = storedHandle cycle := by
  cases cycle with
  | none => simp [ngx_http_zookeeper_exit_master, storedHandle, closeCount]
  | some zmf =>
    cases hz : zmf.handle with
    | none => simp [ngx_http_zookeeper_exit_master, storedHandle, closeCount, hz]
    | some zh0 =>
      refine ⟨?_, ?_, ?_, ?_, ?_⟩
      · simp [storedHandle, hz]
      · intro zh h
        have e : zh0 = zh := by simpa [storedHandle, hz] using h
        simp [ngx_http_zookeeper_exit_master, hz, e]
      · intro zh
        simp only [ngx_http_zookeeper_exit_master, hz, closeCount]
        exact List.count_le_length _ _
      · simp [ngx_http_zookeeper_exit_master, hz]
      · simp [ngx_http_zookeeper_exit_master, hz]

/-- Witness of C5 as amended -/
theorem exit_master_single_run_witness :
    (storedHandle (some demoConf) = none →
        (ngx_http_zookeeper_exit_master (some demoConf)).2 = []) ∧
      (∀ zh, storedHandle (some demoConf) = some zh →
        (ngx_http_zookeeper_exit_master (some demoConf)).2 = [Event.zookeeper_close zh]) ∧
      (∀ zh, closeCount zh (ngx_http_zookeeper_exit_master (some demoConf)).2 ≤ 1) ∧
      (ngx_http_zookeeper_exit_master (some demoConf)).1 = some demoConf ∧
      storedHandle (ngx_http_zookeeper_exit_master (some demoConf)).1
        = storedHandle (some demoConf) :=
  exit_master_single_run (some demoConf)

/-! ## Finalizing the configuration -/

/-- Adding one to a length below `SIZE_MAX` does not wrap. -/
theorem size_t_add_one (n : Nat) (h : n + 1 < 2 ^ 64) : size_t_add n 1 = n + 1 := by
  unfold size_t_add
  exact Nat.mod_eq_of_lt h

/-- A block made of bytes without a zero and then a terminator reads, as a C
string, as exactly those bytes. -/
theorem cstring_terminated (bs : List Nat) (h : 0 ∉ bs) : cstring (bs ++ [0]) = bs := by
  unfold cstring
  induction bs with
  | nil => simp [List.takeWhile]
  | cons b bs ih =>
    have hb : (b != 0) = true := by
      have : b ≠ 0 := fun e => h (by simp [e])
      simpa using this
    have ht : 0 ∉ bs := fun e => h (List.mem_cons_of_mem _ e)
    rw [List.cons_append, List.takeWhile_cons, hb, if_pos rfl, ih ht]

/-- A length that fits an `int` is passed on unchanged as `valuelen`. -/
theorem size_t_to_int_small (n : Nat) (h : n < 2 ^ 31) : size_t_to_int n = (n : Int) := by
  unfold size_t_to_int
  have h32 : n % 2 ^ 32 = n := Nat.mod_eq_of_lt (by
    have : (2 : Nat) ^ 31 < 2 ^ 32 := by norm_num
    omega)
  rw [h32, if_pos h]

/-- The bytes an `ngx_str_t` denotes are `len` many when it is well formed. -/
theorem ngx_str_t.length_bytes (s : ngx_str_t) (h : s.wf) : s.bytes.length = s.len := by
  unfold ngx_str_t.bytes
  exact List.length_take_of_le h.2

/-- What `malloc(len + 1)`, `memcpy` of `len` bytes and the store of `0` at
offset `len` leave in the block: the `len` source bytes, then the terminator. -/
theorem copy_terminate (g : Nat → Nat) (s : ngx_str_t) (h : s.wf) :
    (memcpy ((List.range (size_t_add s.len 1)).map g) (s.data.getD []) s.len).set s.len 0
      = s.bytes ++ [0] := by
  rw [size_t_add_one s.len h.1]
  unfold memcpy ngx_str_t.bytes
  have hl : ((s.data.getD []).take s.len).length = s.len := List.length_take_of_le h.2
  have hd : ((List.range (s.len + 1)).map g).drop s.len = [g s.len] := by
    rw [List.range_succ, List.map_append]
    have hm : (List.map g (List.range s.len)).length = s.len := by simp
    rw [List.drop_left' hm]
    simp
  rw [hd, List.set_append_right _ _ (by omega)]
  simp [hl]

/-- The value block, when every allocation succeeds. -/
theorem init_main_conf_value_ok (mf : ngx_http_zookeeper_main_conf_t) (heap : Heap)
    (trace : List Event) (hV : mf.value.wf) (halloc : ∀ k, (heap.outcome k).isSome) :
    (init_main_conf_value mf heap trace).ret = conf_ret.NGX_CONF_OK ∧
      (init_main_conf_value mf heap trace).conf
        = some { mf with cValue := finalBuffer mf.value mf.cValue } := by
  unfold init_main_conf_value finalBuffer
  by_cases h0 : mf.value.len = 0
  · simp [h0]
  · obtain ⟨g, hg⟩ := Option.isSome_iff_exists.mp (halloc heap.calls)
    simp [h0, malloc, hg, copy_terminate g mf.value hV]

/-- The path block and what follows it, when every allocation succeeds. -/
theorem init_main_conf_path_ok (mf : ngx_http_zookeeper_main_conf_t) (heap : Heap)
    (trace : List Event) (hP : mf.path.wf) (hV : mf.value.wf)
    (halloc : ∀ k, (heap.outcome k).isSome) :
    (init_main_conf_path mf heap trace).ret = conf_ret.NGX_CONF_OK ∧
      (init_main_conf_path mf heap trace).conf
        = some { mf with cPath := finalBuffer mf.path mf.cPath,
                         cValue := finalBuffer mf.value mf.cValue } := by
  unfold init_main_conf_path
  by_cases h0 : mf.path.len = 0
  · simpa [h0, finalBuffer] using init_main_conf_value_ok mf heap _ hV halloc
  · obtain ⟨g, hg⟩ := Option.isSome_iff_exists.mp (halloc heap.calls)
    simp only [Nat.le_zero, h0, if_false, malloc, hg, Option.map_some',
      copy_terminate g mf.path hP]
    have := init_main_conf_value_ok { mf with cPath := some (mf.path.bytes ++ [0]) }
      ⟨heap.calls + 1, heap.outcome⟩ trace hV halloc
    simpa [finalBuffer, h0] using this

/-- The host block and what follows it, when every allocation succeeds. -/
theorem init_main_conf_host_ok (mf : ngx_http_zookeeper_main_conf_t) (heap : Heap)
    (trace : List Event) (hH : mf.host.wf) (hP : mf.path.wf) (hV : mf.value.wf)
    (halloc : ∀ k, (heap.outcome k).isSome) :
    (init_main_conf_host mf heap trace).ret = conf_ret.NGX_CONF_OK ∧
      (init_main_conf_host mf heap trace).conf
        = some { mf with cHost := finalBuffer mf.host mf.cHost,
                         cPath := finalBuffer mf.path mf.cPath,
                         cValue := finalBuffer mf.value mf.cValue } := by
  unfold init_main_conf_host
  by_cases h0 : mf.host.len = 0
  · simpa [h0, finalBuffer] using init_main_conf_path_ok mf heap _ hP hV halloc
  · obtain ⟨g, hg⟩ := Option.isSome_iff_exists.mp (halloc heap.calls)
    simp only [Nat.le_zero, h0, if_false, malloc, hg, Option.map_some',
      copy_terminate g mf.host hH]
    have := init_main_conf_path_ok { mf with cHost := some (mf.host.bytes ++ [0]) }
      ⟨heap.calls + 1, heap.outcome⟩ trace hP hV halloc
    simpa [finalBuffer, h0] using this

/-- C9: on a configuration whose three raw values are well formed, and with an
allocator whose every call succeeds, `ngx_http_zookeeper_init_main_conf`
returns `NGX_CONF_OK` whether or not fields are missing; the raw values (and
their lengths) and the handle are unchanged; and for each field on its own, a
non-empty raw value leaves a buffer holding exactly its bytes followed by one
zero byte, `len + 1` bytes in all, while an empty raw value leaves the buffer
as it was, so absent when it was absent (as it is after
`ngx_http_zookeeper_create_main_conf`). -/
theorem init_main_conf_copies (heap : Heap) (mf : ngx_http_zookeeper_main_conf_t)
    (hH : mf.host.wf) (hP : mf.path.wf) (hV : mf.value.wf)
    (halloc : ∀ k, (heap.outcome k).isSome) :
    (ngx_http_zookeeper_init_main_conf heap (some mf)).ret = conf_ret.NGX_CONF_OK ∧
      ∃ mf', (ngx_http_zookeeper_init_main_conf heap (some mf)).conf = some mf' ∧
        mf'.host = mf.host ∧ mf'.path = mf.path ∧ mf'.value = mf.value ∧
        mf'.handle = mf.handle ∧
        (mf.host.len ≠ 0 → mf'.cHost = some (mf.host.bytes ++ [0]) ∧
          (mf.host.bytes ++ [0]).length = mf.host.len + 1) ∧
        (mf.path.len ≠ 0 → mf'.cPath = some (mf.path.bytes ++ [0]) ∧
          (mf.path.bytes ++ [0]).length = mf.path.len + 1) ∧
        (mf.value.len ≠ 0 → mf'.cValue = some (mf.value.bytes ++ [0]) ∧
          (mf.value.bytes ++ [0]).length = mf.value.len + 1) ∧
        (mf.host.len = 0 → mf'.cHost = mf.cHost ∧ (mf.cHost = none → mf'.cHost = none)) ∧
        (mf.path.len = 0 → mf'.cPath = mf.cPath ∧ (mf.cPath = none → mf'.cPath = none)) ∧
        (mf.value.len = 0 →
          mf'.cValue = mf.cValue ∧ (mf.cValue = none → mf'.cValue = none)) := by
  obtain ⟨hr, hc⟩ := init_main_conf_host_ok mf heap [] hH hP hV halloc
  refine ⟨hr, _, hc, rfl, rfl, rfl, rfl, ?_, ?_, ?_, ?_, ?_, ?_⟩
  · intro h; simp [finalBuffer, h, ngx_str_t.length_bytes _ hH]
  · intro h; simp [finalBuffer, h, ngx_str_t.length_bytes _ hP]
  · intro h; simp [finalBuffer, h, ngx_str_t.length_bytes _ hV]
  · intro h; simp [finalBuffer, h]
  · intro h; simp [finalBuffer, h]
  · intro h; simp [finalBuffer, h]

/-- C2: take a configuration whose three raw values are well formed and
non-empty, with a payload length that fits the `int` parameter of `zoo_create`
(directive arguments are tokens of the nginx configuration reader, shorter than
its 4096 byte buffer); finalize it with an allocator whose every call
succeeds, and let `zookeeper_init` return the handle `zh` and `zoo_create`
return `ZOK`.  Then the start hook's whole trace is one `zookeeper_init`
followed by one `zoo_create` (no close, no log): the open gets the block of the
address bytes and their terminator, no watcher and a timeout of 10000; the
create gets the handle `zh`, the block of the path bytes and their terminator,
the payload block whose first `valuelen` bytes are the payload, `valuelen`
equal to the payload length, the open ACL and the flag `ZOO_EPHEMERAL`, whose
ephemeral bit is set and whose sequence bit is clear.  Read as C strings the
address and path blocks are the configured bytes when these hold no zero
byte.  The hook returns `NGX_OK` and `zh` is stored. -/
theorem init_module_registers (heap : Heap) (zk : ZooKeeper)
    (mf : ngx_http_zookeeper_main_conf_t) (zh : zhandle_t)
    (hH : mf.host.wf) (hP : mf.path.wf) (hV : mf.value.wf)
    (hh : 0 < mf.host.len) (hp : 0 < mf.path.len) (hv : 0 < mf.value.len)
    (hint : mf.value.len < 2 ^ 31)
    (halloc : ∀ k, (heap.outcome k).isSome)
    (hopen : zk.init (mf.host.bytes ++ [0]) = some zh)
    (hcreate : zk.create zh (mf.path.bytes ++ [0]) (mf.value.bytes ++ [0])
      (mf.value.len : Int) = ZOK) :
    (ngx_http_zookeeper_init_module false zk
        (ngx_http_zookeeper_init_main_conf heap (some mf)).conf).trace
        = [Event.zookeeper_init (mf.host.bytes ++ [0]) none 10000 none none 0,
           Event.zoo_create zh (mf.path.bytes ++ [0]) (mf.value.bytes ++ [0])
             (mf.value.len : Int) ACL_vector.ZOO_OPEN_ACL_UNSAFE ZOO_EPHEMERAL none 0] ∧
      clientCalls (ngx_http_zookeeper_init_module false zk
        (ngx_http_zookeeper_init_main_conf heap (some mf)).conf).trace
        = [Event.zookeeper_init (mf.host.bytes ++ [0]) none 10000 none none 0,
           Event.zoo_create zh (mf.path.bytes ++ [0]) (mf.value.bytes ++ [0])
             (mf.value.len : Int) ACL_vector.ZOO_OPEN_ACL_UNSAFE ZOO_EPHEMERAL none 0] ∧
      (mf.value.bytes ++ [0]).take mf.value.len = mf.value.bytes ∧
      mf.value.bytes.length = mf.value.len ∧
      (0 ∉ mf.host.bytes → cstring (mf.host.bytes ++ [0]) = mf.host.bytes) ∧
      (0 ∉ mf.path.bytes → cstring (mf.path.bytes ++ [0]) = mf.path.bytes) ∧
      (ZOO_EPHEMERAL % 2 = 1 ∧ ZOO_EPHEMERAL / ZOO_SEQUENCE % 2 = 0) ∧
      (ngx_http_zookeeper_init_module false zk
        (ngx_http_zookeeper_init_main_conf heap (some mf)).conf).ret = NGX_OK ∧
      storedHandle (ngx_http_zookeeper_init_module false zk
        (ngx_http_zookeeper_init_main_conf heap (some mf)).conf).conf = some zh := by
  obtain ⟨-, hc⟩ := init_main_conf_host_ok mf heap [] hH hP hV halloc
  have e1 : mf.host.len ≠ 0 := by omega
  have e2 : mf.path.len ≠ 0 := by omega
  have e3 : mf.value.len ≠ 0 := by omega
  have hlen := ngx_str_t.length_bytes _ hV
  have hb : (mf.value.bytes ++ [0]).take mf.value.len = mf.value.bytes := by
    rw [← hlen]; simp
  have hrun : ngx_http_zookeeper_init_module false zk
        (ngx_http_zookeeper_init_main_conf heap (some mf)).conf
      = HookResult.mk NGX_OK
          (some (ngx_http_zookeeper_main_conf_t.mk mf.host mf.path mf.value
            (some (mf.host.bytes ++ [0])) (some (mf.path.bytes ++ [0]))
            (some (mf.value.bytes ++ [0])) (some zh)))
          [Event.zookeeper_init (mf.host.bytes ++ [0]) none 10000 none none 0,
           Event.zoo_create zh (mf.path.bytes ++ [0]) (mf.value.bytes ++ [0])
             (mf.value.len : Int) ACL_vector.ZOO_OPEN_ACL_UNSAFE ZOO_EPHEMERAL none 0] := by
    unfold ngx_http_zookeeper_init_main_conf
    rw [hc]
    simp [ngx_http_zookeeper_init_module, finalBuffer, e1, e2, e3, hopen, hcreate,
      size_t_to_int_small _ hint]
  rw [hrun]
  refine ⟨rfl, ?_, hb, hlen, cstring_terminated _, cstring_terminated _, by decide, rfl, ?_⟩
  · simp [clientCalls, Event.isClientCall]
  · simp [storedHandle]

/-! ## The configuration phase as a whole -/

/-- The directive handlers write the three raw values only. -/
theorem run_directives_frame (slot : SlotSetter) (ds : List (Directive × ngx_str_t))
    (conf : ngx_http_zookeeper_main_conf_t) :
    (run_directives slot ds conf).cHost = conf.cHost ∧
      (run_directives slot ds conf).cPath = conf.cPath ∧
      (run_directives slot ds conf).cValue = conf.cValue ∧
      (run_directives slot ds conf).handle = conf.handle := by
  unfold run_directives
  induction ds generalizing conf with
  | nil => simp
  | cons d ds ih =>
    rw [List.foldl_cons]
    obtain ⟨h1, h2, h3, h4⟩ := ih (ngx_http_zookeeper_commands d.1 slot d.2 conf).2
    rw [h1, h2, h3, h4]
    cases hd : d.1 <;>
      simp [ngx_http_zookeeper_commands, ngx_http_zookeeper_path_parser_fn,
        ngx_http_zookeeper_host_parser_fn, ngx_http_zookeeper_value_parser_fn]

/-- The value block, when it returns `NGX_CONF_OK`. -/
theorem init_main_conf_value_present (mf : ngx_http_zookeeper_main_conf_t) (heap : Heap)
    (trace : List Event)
    (hok : (init_main_conf_value mf heap trace).ret = conf_ret.NGX_CONF_OK) :
    ∃ mf', (init_main_conf_value mf heap trace).conf = some mf' ∧
      mf'.host = mf.host ∧ mf'.path = mf.path ∧ mf'.value = mf.value ∧
      mf'.cHost = mf.cHost ∧ mf'.cPath = mf.cPath ∧ mf'.handle = mf.handle ∧
      (mf.value.len = 0 → mf'.cValue = mf.cValue) ∧
      (mf.value.len ≠ 0 → mf'.cValue.isSome) := by
  unfold init_main_conf_value at hok ⊢
  by_cases h0 : mf.value.len = 0
  · simp [h0]
  · cases hm : heap.outcome heap.calls with
    | none => simp [h0, malloc, hm] at hok
    | some g => simp [h0, malloc, hm]

/-- The path block and what follows it, when it returns `NGX_CONF_OK`. -/
theorem init_main_conf_path_present (mf : ngx_http_zookeeper_main_conf_t) (heap : Heap)
    (trace : List Event)
    (hok : (init_main_conf_path mf heap trace).ret = conf_ret.NGX_CONF_OK) :
    ∃ mf', (init_main_conf_path mf heap trace).conf = some mf' ∧
      mf'.host = mf.host ∧ mf'.path = mf.path ∧ mf'.value = mf.value ∧
      mf'.cHost = mf.cHost ∧ mf'.handle = mf.handle ∧
      (mf.path.len = 0 → mf'.cPath = mf.cPath) ∧
      (mf.path.len ≠ 0 → mf'.cPath.isSome) ∧
      (mf.value.len = 0 → mf'.cValue = mf.cValue) ∧
      (mf.value.len ≠ 0 → mf'.cValue.isSome) := by
  unfold init_main_conf_path at hok ⊢
  by_cases h0 : mf.path.len = 0
  · simp only [Nat.le_zero, h0, if_true] at hok ⊢
    obtain ⟨mf', hc, a1, a2, a3, a4, a5, a6, a7, a8⟩ := init_main_conf_value_present _ _ _ hok
    exact ⟨mf', hc, a1, a2, a3, a4, a6, fun _ => a5, fun h => absurd rfl h, a7, a8⟩
  · cases hm : heap.outcome heap.calls with
    | none => simp [h0, malloc, hm] at hok
    | some g =>
      simp only [Nat.le_zero, h0, if_false, malloc, hm, Option.map_some'] at hok ⊢
      obtain ⟨mf', hc, a1, a2, a3, a4, a5, a6, a7, a8⟩ :=
        init_main_conf_value_present _ _ _ hok
      exact ⟨mf', hc, a1, a2, a3, a4, a6, fun h => False.elim h,
        fun _ => by rw [a5]; rfl, a7, a8⟩

/-- The host block and what follows it, when it returns `NGX_CONF_OK`. -/
theorem init_main_conf_host_present (mf : ngx_http_zookeeper_main_conf_t) (heap : Heap)
    (trace : List Event)
    (hok : (init_main_conf_host mf heap trace).ret = conf_ret.NGX_CONF_OK) :
    ∃ mf', (init_main_conf_host mf heap trace).conf = some mf' ∧
      mf'.host = mf.host ∧ mf'.path = mf.path ∧ mf'.value = mf.value ∧
      mf'.handle = mf.handle ∧
      (mf.host.len = 0 → mf'.cHost = mf.cHost) ∧
      (mf.host.len ≠ 0 → mf'.cHost.isSome) ∧
      (mf.path.len = 0 → mf'.cPath = mf.cPath) ∧
      (mf.path.len ≠ 0 → mf'.cPath.isSome) ∧
      (mf.value.len = 0 → mf'.cValue = mf.cValue) ∧
      (mf.value.len ≠ 0 → mf'.cValue.isSome) := by
  unfold init_main_conf_host at hok ⊢
  by_cases h0 : mf.host.len = 0
  · simp only [Nat.le_zero, h0, if_true] at hok ⊢
    obtain ⟨mf', hc, a1, a2, a3, a4, a5, a6, a7, a8, a9⟩ :=
      init_main_conf_path_present _ _ _ hok
    exact ⟨mf', hc, a1, a2, a3, a5, fun _ => a4, fun h => absurd rfl h, a6, a7, a8, a9⟩
  · cases hm : heap.outcome heap.calls with
    | none => simp [h0, malloc, hm] at hok
    | some g =>
      simp only [Nat.le_zero, h0, if_false, malloc, hm, Option.map_some'] at hok ⊢
      obtain ⟨mf', hc, a1, a2, a3, a4, a5, a6, a7, a8, a9⟩ :=
        init_main_conf_path_present _ _ _ hok
      exact ⟨mf', hc, a1, a2, a3, a5, fun h => False.elim h,
        fun _ => by rw [a4]; rfl, a6, a7, a8, a9⟩

/-- The start hook on a configuration whose buffers are present exactly where
the raw values are non-empty: no null-buffer branch is taken. -/
theorem init_module_buffers_match (zk : ZooKeeper) (zmf : ngx_http_zookeeper_main_conf_t)
    (hH : zmf.cHost.isSome ↔ zmf.host.len ≠ 0) (hP : zmf.cPath.isSome ↔ zmf.path.len ≠ 0)
    (hV : zmf.cValue.isSome ↔ zmf.value.len ≠ 0) :
    (∀ e ∈ (ngx_http_zookeeper_init_module false zk (some zmf)).trace,
        e.isImpossibleLog = false) ∧
      (((zmf.host.len = 0 ∨ zmf.path.len = 0 ∨ zmf.value.len = 0) ∧
          (ngx_http_zookeeper_init_module false zk (some zmf)).ret = NGX_OK ∧
          clientCalls (ngx_http_zookeeper_init_module false zk (some zmf)).trace = []) ∨
        ((zmf.host.len ≠ 0 ∧ zmf.path.len ≠ 0 ∧ zmf.value.len ≠ 0) ∧
          ∃ cHost, zmf.cHost = some cHost ∧
            (ngx_http_zookeeper_init_module false zk (some zmf)).trace.head?
              = some (Event.zookeeper_init cHost none 10000 none none 0))) := by
  by_cases h1 : zmf.host.len = 0
  · simp [ngx_http_zookeeper_init_module, h1, Event.isImpossibleLog, clientCalls,
      Event.isClientCall]
  by_cases h2 : zmf.path.len = 0
  · simp [ngx_http_zookeeper_init_module, h1, h2, Event.isImpossibleLog, clientCalls,
      Event.isClientCall]
  by_cases h3 : zmf.value.len = 0
  · simp [ngx_http_zookeeper_init_module, h1, h2, h3, Event.isImpossibleLog, clientCalls,
      Event.isClientCall]
  obtain ⟨cHost, hcH⟩ := Option.isSome_iff_exists.mp (hH.mpr h1)
  obtain ⟨cPath, hcP⟩ := Option.isSome_iff_exists.mp (hP.mpr h2)
  obtain ⟨cValue, hcV⟩ := Option.isSome_iff_exists.mp (hV.mpr h3)
  cases ho : zk.init cHost with
  | none =>
    simp [ngx_http_zookeeper_init_module, h1, h2, h3, hcH, hcP, hcV, ho,
      Event.isImpossibleLog]
  | some zh =>
    by_cases hc : ZOK = zk.create zh cPath cValue (size_t_to_int zmf.value.len)
    · simp [ngx_http_zookeeper_init_module, h1, h2, h3, hcH, hcP, hcV, ho, ← hc,
        Event.isImpossibleLog]
    · simp [ngx_http_zookeeper_init_module, h1, h2, h3, hcH, hcP, hcV, ho, hc,
        Event.isImpossibleLog]

/-- The null-buffer branches do log: a configuration with all three raw values
set and a null address buffer makes the start hook log `Impossible cHost` and
return `NGX_ERROR` without calling the client library. -/
theorem init_module_null_buffer (zk : ZooKeeper) (zmf : ngx_http_zookeeper_main_conf_t)
    (hh : 0 < zmf.host.len) (hp : 0 < zmf.path.len) (hv : 0 < zmf.value.len)
    (hcH : zmf.cHost = none) :
    (ngx_http_zookeeper_init_module false zk (some zmf)).ret = NGX_ERROR ∧
      (ngx_http_zookeeper_init_module false zk (some zmf)).trace.all
        Event.isImpossibleLog = true := by
  have e1 : zmf.host.len ≠ 0 := by omega
  have e2 : zmf.path.len ≠ 0 := by omega
  have e3 : zmf.value.len ≠ 0 := by omega
  simp [ngx_http_zookeeper_init_module, e1, e2, e3, hcH, Event.isImpossibleLog]

/-- C10: let the configuration phase (creation of the main configuration, the
handlers of any list of directives with any arguments, whatever the slot
setter stores, then `ngx_http_zookeeper_init_main_conf`) return `NGX_CONF_OK`.
Then each buffer of the resulting configuration is present exactly when its raw
value is non-empty, and the start hook run on it logs none of the `Impossible`
messages: either a raw value is empty, and it returns `NGX_OK` without calling
the client library, or all three are set and its first call is
`zookeeper_init` on the address buffer. -/
theorem impossible_branches_unreachable (pcalloc_ok : Bool) (slot : SlotSetter)
    (ds : List (Directive × ngx_str_t)) (heap : Heap) (zk : ZooKeeper)
    (hok : (configure pcalloc_ok slot ds heap).ret = conf_ret.NGX_CONF_OK) :
    ∃ zmf, (configure pcalloc_ok slot ds heap).conf = some zmf ∧
      (zmf.cHost.isSome ↔ zmf.host.len ≠ 0) ∧
      (zmf.cPath.isSome ↔ zmf.path.len ≠ 0) ∧
      (zmf.cValue.isSome ↔ zmf.value.len ≠ 0) ∧
      (∀ e ∈ (ngx_http_zookeeper_init_module false zk (some zmf)).trace,
        e.isImpossibleLog = false) ∧
      (((zmf.host.len = 0 ∨ zmf.path.len = 0 ∨ zmf.value.len = 0) ∧
          (ngx_http_zookeeper_init_module false zk (some zmf)).ret = NGX_OK ∧
          clientCalls (ngx_http_zookeeper_init_module false zk (some zmf)).trace = []) ∨
        ((zmf.host.len ≠ 0 ∧ zmf.path.len ≠ 0 ∧ zmf.value.len ≠ 0) ∧
          ∃ cHost, zmf.cHost = some cHost ∧
            (ngx_http_zookeeper_init_module false zk (some zmf)).trace.head?
              = some (Event.zookeeper_init cHost none 10000 none none 0))) := by
  cases pcalloc_ok with
  | false => simp [configure, ngx_http_zookeeper_create_main_conf] at hok
  | true =>
    simp only [configure, ngx_http_zookeeper_create_main_conf, Bool.not_true,
      Bool.false_eq_true, if_false, ngx_http_zookeeper_init_main_conf] at hok ⊢
    obtain ⟨f1, f2, f3, -⟩ := run_directives_frame slot ds
      ⟨⟨0, none⟩, ⟨0, none⟩, ⟨0, none⟩, none, none, none, none⟩
    obtain ⟨zmf, hc, a1, a2, a3, -, b1, b2, b3, b4, b5, b6⟩ :=
      init_main_conf_host_present _ _ _ hok
    have hH : zmf.cHost.isSome ↔ zmf.host.len ≠ 0 := by
      rw [a1]
      constructor
      · intro h h0
        rw [b1 h0, f1] at h
        simp at h
      · exact b2
    have hP : zmf.cPath.isSome ↔ zmf.path.len ≠ 0 := by
      rw [a2]
      constructor
      · intro h h0
        rw [b3 h0, f2] at h
        simp at h
      · exact b4
    have hV : zmf.cValue.isSome ↔ zmf.value.len ≠ 0 := by
      rw [a3]
      constructor
      · intro h h0
        rw [b5 h0, f3] at h
        simp at h
      · exact b6
    exact ⟨zmf, hc, hH, hP, hV, init_module_buffers_match zk zmf hH hP hV⟩

/-- Witness of C9 -/
theorem init_main_conf_copies_witness :
    (demoRawNoPath.host.wf ∧ demoRawNoPath.path.wf ∧ demoRawNoPath.value.wf ∧
        ∀ k, (heapOk.outcome k).isSome) ∧
      ((ngx_http_zookeeper_init_main_conf heapOk (some demoRawNoPath)).ret
          = conf_ret.NGX_CONF_OK ∧
        ∃ mf', (ngx_http_zookeeper_init_main_conf heapOk (some demoRawNoPath)).conf = some mf' ∧
          mf'.host = demoRawNoPath.host ∧ mf'.path = demoRawNoPath.path ∧
          mf'.value = demoRawNoPath.value ∧ mf'.handle = demoRawNoPath.handle ∧
          (demoRawNoPath.host.len ≠ 0 → mf'.cHost = some (demoRawNoPath.host.bytes ++ [0]) ∧
            (demoRawNoPath.host.bytes ++ [0]).length = demoRawNoPath.host.len + 1) ∧
          (demoRawNoPath.path.len ≠ 0 → mf'.cPath = some (demoRawNoPath.path.bytes ++ [0]) ∧
            (demoRawNoPath.path.bytes ++ [0]).length = demoRawNoPath.path.len + 1) ∧
          (demoRawNoPath.value.len ≠ 0 →
            mf'.cValue = some (demoRawNoPath.value.bytes ++ [0]) ∧
            (demoRawNoPath.value.bytes ++ [0]).length = demoRawNoPath.value.len + 1) ∧
          (demoRawNoPath.host.len = 0 →
            mf'.cHost = demoRawNoPath.cHost ∧ (demoRawNoPath.cHost = none → mf'.cHost = none)) ∧
          (demoRawNoPath.path.len = 0 →
            mf'.cPath = demoRawNoPath.cPath ∧ (demoRawNoPath.cPath = none → mf'.cPath = none)) ∧
          (demoRawNoPath.value.len = 0 →
            mf'.cValue = demoRawNoPath.cValue ∧
            (demoRawNoPath.cValue = none → mf'.cValue = none))) :=
  ⟨⟨by decide, by decide, by decide, fun _ => rfl⟩,
    init_main_conf_copies heapOk demoRawNoPath (by decide) (by decide) (by decide)
      (fun _ => rfl)⟩

/-- Witness of C2 -/
theorem init_module_registers_witness :
    (demoRaw.host.wf ∧ demoRaw.path.wf ∧ demoRaw.value.wf ∧
        0 < demoRaw.host.len ∧ 0 < demoRaw.path.len ∧ 0 < demoRaw.value.len ∧
        demoRaw.value.len < 2 ^ 31 ∧
        (∀ k, (heapOk.outcome k).isSome) ∧
        zkUp.init (demoRaw.host.bytes ++ [0]) = some 7 ∧
        zkUp.create 7 (demoRaw.path.bytes ++ [0]) (demoRaw.value.bytes ++ [0])
          (demoRaw.value.len : Int) = ZOK) ∧
      ((ngx_http_zookeeper_init_module false zkUp
          (ngx_http_zookeeper_init_main_conf heapOk (some demoRaw)).conf).trace
          = [Event.zookeeper_init (demoRaw.host.bytes ++ [0]) none 10000 none none 0,
             Event.zoo_create 7 (demoRaw.path.bytes ++ [0]) (demoRaw.value.bytes ++ [0])
               (demoRaw.value.len : Int) ACL_vector.ZOO_OPEN_ACL_UNSAFE ZOO_EPHEMERAL none 0] ∧
        clientCalls (ngx_http_zookeeper_init_module false zkUp
          (ngx_http_zookeeper_init_main_conf heapOk (some demoRaw)).conf).trace
          = [Event.zookeeper_init (demoRaw.host.bytes ++ [0]) none 10000 none none 0,
             Event.zoo_create 7 (demoRaw.path.bytes ++ [0]) (demoRaw.value.bytes ++ [0])
               (demoRaw.value.len : Int) ACL_vector.ZOO_OPEN_ACL_UNSAFE ZOO_EPHEMERAL none 0] ∧
        (demoRaw.value.bytes ++ [0]).take demoRaw.value.len = demoRaw.value.bytes ∧
        demoRaw.value.bytes.length = demoRaw.value.len ∧
        (0 ∉ demoRaw.host.bytes → cstring (demoRaw.host.bytes ++ [0]) = demoRaw.host.bytes) ∧
        (0 ∉ demoRaw.path.bytes → cstring (demoRaw.path.bytes ++ [0]) = demoRaw.path.bytes) ∧
        (ZOO_EPHEMERAL % 2 = 1 ∧ ZOO_EPHEMERAL / ZOO_SEQUENCE % 2 = 0) ∧
        (ngx_http_zookeeper_init_module false zkUp
          (ngx_http_zookeeper_init_main_conf heapOk (some demoRaw)).conf).ret = NGX_OK ∧
        storedHandle (ngx_http_zookeeper_init_module false zkUp
          (ngx_http_zookeeper_init_main_conf heapOk (some demoRaw)).conf).conf = some 7) :=
  ⟨⟨by decide, by decide, by decide, by decide, by decide, by decide, by decide,
      fun _ => rfl, rfl, rfl⟩,
    init_module_registers heapOk zkUp demoRaw 7 (by decide) (by decide) (by decide)
      (by decide) (by decide) (by decide) (by decide) (fun _ => rfl) rfl rfl⟩

/-- Witness of C10 -/
theorem impossible_branches_unreachable_witness :
    (configure true ngx_conf_set_str_slot demoDirectives heapOk).ret = conf_ret.NGX_CONF_OK ∧
      ∃ zmf, (configure true ngx_conf_set_str_slot demoDirectives heapOk).conf = some zmf ∧
        (zmf.cHost.isSome ↔ zmf.host.len ≠ 0) ∧
        (zmf.cPath.isSome ↔ zmf.path.len ≠ 0) ∧
        (zmf.cValue.isSome ↔ zmf.value.len ≠ 0) ∧
        (∀ e ∈ (ngx_http_zookeeper_init_module false zkUp (some zmf)).trace,
          e.isImpossibleLog = false) ∧
        (((zmf.host.len = 0 ∨ zmf.path.len = 0 ∨ zmf.value.len = 0) ∧
            (ngx_http_zookeeper_init_module false zkUp (some zmf)).ret = NGX_OK ∧
            clientCalls (ngx_http_zookeeper_init_module false zkUp (some zmf)).trace = []) ∨
          ((zmf.host.len ≠ 0 ∧ zmf.path.len ≠ 0 ∧ zmf.value.len ≠ 0) ∧
            ∃ cHost, zmf.cHost = some cHost ∧
              (ngx_http_zookeeper_init_module false zkUp (some zmf)).trace.head?
                = some (Event.zookeeper_init cHost none 10000 none none 0))) :=
  ⟨by decide, impossible_branches_unreachable true ngx_conf_set_str_slot demoDirectives heapOk
    zkUp (by decide)⟩

/-- The configuration phase on the example file yields the finalized
configuration `demoConfNoPath`, and finalizing `demoRaw` yields `demoConf`. -/
theorem configure_demo :
    (configure true ngx_conf_set_str_slot demoDirectives heapOk).conf = some demoConfNoPath ∧
      (ngx_http_zookeeper_init_main_conf heapOk (some demoRaw)).conf = some demoConf := by
  decide

end NgxZookeeper
